import Mathlib

/-!
Verification of the structural OpenAPI spec validator
(`openapi_spec_validator/validators.py`).

The document tree is modelled by an untyped `Json` value (Python objects:
`None`, booleans, numbers, strings, lists, dicts as ordered association
lists).  The external `$ref` resolver (jsonschema's `RefResolver`, an
external collaborator) is modelled by a finite table `RefStore` mapping
reference strings to their target nodes; a missing entry is a fatal
resolution failure.  The generic schema-conformance engine
(`OAS31Validator`, also external) is a parameter `check : Json → Json →
List Error`.  Python's unbounded recursion is modelled with explicit fuel;
exhausting fuel at every fuel value is how non-termination of the source
shows up in the model.  Python exceptions that abort a validation pass
(resolution failures, `TypeError`/`KeyError`/`AttributeError`) are the
`Fatal` side of an `Except`; errors yielded by the generators are the
ordered `List Error` on the success side.
-/

/-- A parsed document node: Python scalars, lists and (ordered) dicts. -/
inductive Json where
  | null : Json
  | bool : Bool → Json
  | num : Int → Json
  | str : String → Json
  | arr : List Json → Json
  | obj : List (String × Json) → Json

mutual
/-- Structural (Python `==`) equality of document nodes. -/
def beqJson : Json → Json → Bool
  | Json.null, Json.null => true
  | Json.bool a, Json.bool b => a == b
  | Json.num a, Json.num b => a == b
  | Json.str a, Json.str b => a == b
  | Json.arr a, Json.arr b => beqJsonList a b
  | Json.obj a, Json.obj b => beqJsonFields a b
  | _, _ => false

def beqJsonList : List Json → List Json → Bool
  | [], [] => true
  | x :: xs, y :: ys => beqJson x y && beqJsonList xs ys
  | _, _ => false

def beqJsonFields : List (String × Json) → List (String × Json) → Bool
  | [], [] => true
  | (k, v) :: xs, (l, w) :: ys => k == l && beqJson v w && beqJsonFields xs ys
  | _, _ => false
end

mutual
theorem beqJson_iff : ∀ (a b : Json), beqJson a b = true ↔ a = b
  | Json.null, b => by cases b <;> simp [beqJson]
  | Json.bool x, b => by cases b <;> simp [beqJson]
  | Json.num x, b => by cases b <;> simp [beqJson]
  | Json.str x, b => by cases b <;> simp [beqJson]
  | Json.arr xs, b => by
      cases b <;> simp [beqJson]
      exact beqJsonList_iff xs _
  | Json.obj xs, b => by
      cases b <;> simp [beqJson]
      exact beqJsonFields_iff xs _

theorem beqJsonList_iff : ∀ (a b : List Json), beqJsonList a b = true ↔ a = b
  | [], b => by cases b <;> simp [beqJsonList]
  | x :: xs, b => by
      cases b with
      | nil => simp [beqJsonList]
      | cons y ys =>
        simp only [beqJsonList, Bool.and_eq_true, List.cons.injEq]
        exact and_congr (beqJson_iff x y) (beqJsonList_iff xs ys)

theorem beqJsonFields_iff :
    ∀ (a b : List (String × Json)), beqJsonFields a b = true ↔ a = b
  | [], b => by cases b <;> simp [beqJsonFields]
  | (k, v) :: xs, b => by
      cases b with
      | nil => simp [beqJsonFields]
      | cons p ys =>
        obtain ⟨l, w⟩ := p
        simp only [beqJsonFields, Bool.and_eq_true, List.cons.injEq, Prod.mk.injEq,
          beq_iff_eq]
        rw [beqJson_iff v w, beqJsonFields_iff xs ys, and_assoc]
end

instance : DecidableEq Json := fun a b =>
  decidable_of_iff (beqJson a b = true) (beqJson_iff a b)

/-- Dict lookup: first binding of `key` in an object, `none` otherwise
(also `none` on non-objects). -/
def Json.get? : Json → String → Option Json
  | Json.obj fields, key => (fields.find? (fun p => p.1 == key)).map Prod.snd
  | _, _ => none

/-- `isinstance(x, dict)`. -/
def Json.isObj : Json → Bool
  | Json.obj _ => true
  | _ => false

/-- Python truthiness of a document node. -/
def Json.isTruthy : Json → Bool
  | Json.null => false
  | Json.bool b => b
  | Json.num n => n != 0
  | Json.str s => s != ""
  | Json.arr l => !l.isEmpty
  | Json.obj l => !l.isEmpty

mutual
/-- Python `repr` of a document node (enough of it for the error
messages the validators format). -/
def pyRepr : Json → String
  | Json.null => "None"
  | Json.bool true => "True"
  | Json.bool false => "False"
  | Json.num n => toString n
  | Json.str s => "\x27" ++ s ++ "\x27"
  | Json.arr items => "[" ++ String.intercalate ", " (pyReprList items) ++ "]"
  | Json.obj fields => "\x7b" ++ String.intercalate ", " (pyReprFields fields) ++ "\x7d"

def pyReprList : List Json → List String
  | [] => []
  | x :: xs => pyRepr x :: pyReprList xs

def pyReprFields : List (String × Json) → List String
  | [] => []
  | (k, v) :: xs => ("\x27" ++ k ++ "\x27: " ++ pyRepr v) :: pyReprFields xs
end

/-- Python `str` of a document node (bare strings, `repr` otherwise). -/
def pyStr : Json → String
  | Json.str s => s
  | j => pyRepr j

/-- `validators.is_ref`: `isinstance(spec, dict) and '$ref' in spec`. -/
def is_ref (spec : Json) : Bool :=
  spec.isObj && (spec.get? "$ref").isSome

/-- The resolver's view of the world: what each reference string resolves
to.  Models the external `RefResolver` collaborator. -/
abbrev RefStore := List (String × Json)

/-- Resolve one reference string; `none` is a fatal resolution failure. -/
def resolveRef (store : RefStore) (ref : String) : Option Json :=
  (store.find? (fun p => p.1 == ref)).map Prod.snd

/-- Outcome of one `Dereferencer.dereference` call.  `outOfFuel` marks a
run that exceeded the modelling fuel: if it happens at every fuel value,
the source recursion does not terminate. -/
inductive DerefResult where
  | ok : Json → DerefResult
  | resolutionFailure : DerefResult
  | outOfFuel : DerefResult
deriving DecidableEq

/-- `Dereferencer.dereference`: identity on `None`/non-reference nodes;
otherwise resolve the `$ref` string and, while the target is itself a
reference node, keep following the chain.  The source recursion is
unbounded; `fuel` bounds it in the model. -/
def Dereferencer.dereference (store : RefStore) : Nat → Json → DerefResult
  | 0, _ => DerefResult.outOfFuel
  | fuel + 1, item =>
    if is_ref item = false then DerefResult.ok item
    else
      match item.get? "$ref" with
      | some (Json.str ref) =>
        match resolveRef store ref with
        | some target =>
          if is_ref target then Dereferencer.dereference store fuel target
          else DerefResult.ok target
        | none => DerefResult.resolutionFailure
      | _ => DerefResult.resolutionFailure

/-- The validator error taxonomy (`openapi_spec_validator.exceptions`),
each carrying its formatted message.  `schemaViolation` stands for a
conformance error reported by the external generic engine. -/
inductive Error where
  | schemaViolation : String → Error
  | extraParameters : String → Error
  | parameterDuplicate : String → Error
  | unresolvableParameter : String → Error
  | duplicateOperationID : String → Error
deriving DecidableEq

/-- A condition that aborts the whole validation pass instead of being
yielded: a failed `$ref` resolution, exhaustion of modelling fuel, or a
Python `TypeError`/`KeyError`/`AttributeError` raised on ill-typed data. -/
inductive Fatal where
  | resolutionFailure : Fatal
  | outOfFuel : Fatal
  | typeError : Fatal
deriving DecidableEq

/-- The external generic schema-conformance engine (`OAS31Validator` as
used by `ValueValidator`): list of violations of `value` against
`schema`. -/
abbrev Checker := Json → Json → List Error

def Error.isSchemaViolation : Error → Bool
  | Error.schemaViolation _ => true
  | _ => false

def Error.isExtraParameters : Error → Bool
  | Error.extraParameters _ => true
  | _ => false

def Error.isParameterDuplicate : Error → Bool
  | Error.parameterDuplicate _ => true
  | _ => false

def Error.isUnresolvableParameter : Error → Bool
  | Error.unresolvableParameter _ => true
  | _ => false

def Error.isDuplicateOperationID : Error → Bool
  | Error.duplicateOperationID _ => true
  | _ => false

/-- Python `iter(x)` materialised: list elements, dict keys, string
characters; iterating anything else raises. -/
def pyIterE : Json → Except Fatal (List Json)
  | Json.arr items => Except.ok items
  | Json.obj fields => Except.ok (fields.map (fun p => Json.str p.1))
  | Json.str s => Except.ok (s.toList.map (fun c => Json.str (String.mk [c])))
  | _ => Except.error Fatal.typeError

/-- Python `x.items()`: raises unless `x` is a dict. -/
def pyItemsE : Json → Except Fatal (List (String × Json))
  | Json.obj fields => Except.ok fields
  | _ => Except.error Fatal.typeError

/-- Python `x.keys()` materialised: raises unless `x` is a dict. -/
def pyKeysE : Json → Except Fatal (List String)
  | Json.obj fields => Except.ok (fields.map Prod.fst)
  | _ => Except.error Fatal.typeError

/-- Python `x[key]`: raises on a missing key or a non-dict. -/
def pyIndex (x : Json) (key : String) : Except Fatal Json :=
  match x.get? key with
  | some v => Except.ok v
  | none => Except.error Fatal.typeError

/-- Python `x.get(key)`: `None` on a missing key, raises on a non-dict. -/
def pyGet (x : Json) (key : String) : Except Fatal Json :=
  match x with
  | Json.obj _ => Except.ok ((x.get? key).getD Json.null)
  | _ => Except.error Fatal.typeError

/-- Python `x.get(key, d)`: raises on a non-dict. -/
def pyGetD (x : Json) (key : String) (d : Json) : Except Fatal Json :=
  match x with
  | Json.obj _ => Except.ok ((x.get? key).getD d)
  | _ => Except.error Fatal.typeError

/-- Lift a dereference outcome into the pass-aborting monad. -/
def liftD : DerefResult → Except Fatal Json
  | DerefResult.ok j => Except.ok j
  | DerefResult.resolutionFailure => Except.error Fatal.resolutionFailure
  | DerefResult.outOfFuel => Except.error Fatal.outOfFuel

/-- Concatenate the error streams produced by `f` over `l`, aborting at
the first fatal condition (the shape of every `yield from` loop in the
source). -/
def exceptAppendFold (f : α → Except Fatal (List Error)) : List α → Except Fatal (List Error)
  | [] => Except.ok []
  | x :: xs =>
    match f x with
    | Except.error e => Except.error e
    | Except.ok errs =>
      match exceptAppendFold f xs with
      | Except.error e => Except.error e
      | Except.ok more => Except.ok (errs ++ more)

def lbraceChar : Char := Char.ofNat 123

def rbraceChar : Char := Char.ofNat 125

/-- Field text → field name: `string.Formatter` cuts the conversion
(after `!`) and the format spec (after `:`) off the replacement field. -/
def templateFieldName (cs : List Char) : String :=
  String.mk (cs.takeWhile (fun c => c != ':' && c != '!'))

/-- `string.Formatter().parse`, reduced to the replacement-field names it
yields: `{{`/`}}` are literal braces, `{name}` opens a field (the second
component of the state holds the accumulated field text, reversed), a
stray or unclosed brace raises (`none`). -/
def templateScan : List Char → Option (List Char) → Option (List String)
  | [], none => some []
  | [], some _ => none
  | c :: rest, some acc =>
    if c = rbraceChar then
      (templateScan rest none).map (fun l => templateFieldName acc.reverse :: l)
    else templateScan rest (some (c :: acc))
  | [c], none =>
    if c = lbraceChar then none
    else if c = rbraceChar then none
    else some []
  | c :: c2 :: rest2, none =>
    if c = lbraceChar then
      (if c2 = lbraceChar then templateScan rest2 none
       else templateScan (c2 :: rest2) (some []))
    else if c = rbraceChar then
      (if c2 = rbraceChar then templateScan rest2 none
       else none)
    else templateScan (c2 :: rest2) none

/-- `OperationValidator._get_path_params_from_url`: the non-empty
replacement-field names of the URL template (`filter(None, ...)`). -/
def OperationValidator.get_path_params_from_url (url : String) : Option (List String) :=
  (templateScan url.toList none).map (fun l => l.filter (fun s => s ≠ ""))

/-- Helper for `dedupFirst`: drop the elements already in `seen`. -/
def dedupFirstAux (seen : List Json) : List Json → List Json
  | [] => []
  | x :: xs =>
    if x ∈ seen then dedupFirstAux seen xs
    else x :: dedupFirstAux (seen ++ [x]) xs

/-- `list(set(l))` for the places the source deduplicates via a set
(iteration order of a Python set is unspecified; the model keeps first
occurrences). -/
def dedupFirst (l : List Json) : List Json := dedupFirstAux [] l

/-- The `default` paragraph of `SchemaValidator.iter_errors`: a declared
`default` is validated against the schema itself unless it is `None`
while the schema is explicitly `nullable` (`if default is not None or
nullable is not True`). -/
def SchemaValidator.default_errors (check : Checker) (sd : Json) : List Error :=
  match sd.get? "default" with
  | none => []
  | some d =>
    let nullable := (sd.get? "nullable").getD (Json.bool false)
    if d ≠ Json.null ∨ nullable ≠ Json.bool true then check sd d else []

/-- The `extra_properties` list of `SchemaValidator.iter_errors`
(`list(set(required) - set(properties.keys()))`). -/
def schemaExtraOf (required : List Json) (propKeys : List String) : List Json :=
  dedupFirst (required.filter fun r => propKeys.all fun k => r ≠ Json.str k)

/-- The message of the `ExtraParametersError` the schema validator
formats (Python renders the list with `repr` of its elements). -/
def extraParametersMsg (extra : List Json) : String :=
  "Required list has not defined properties: " ++ "[" ++
    String.intercalate ", " (pyReprList extra) ++ "]"

/-- The `required`/`properties` paragraph and the `default` paragraph of
`SchemaValidator.iter_errors`, applied to the already-dereferenced
schema, with the `allOf` errors collected beforehand prepended. -/
def SchemaValidator.required_default_part (check : Checker) (sd : Json)
    (require_properties : Bool) (allOfErrs : List Error) : Except Fatal (List Error) :=
  match pyIterE ((sd.get? "required").getD (Json.arr [])) with
  | Except.error e => Except.error e
  | Except.ok required =>
    match pyKeysE ((sd.get? "properties").getD (Json.obj [])) with
    | Except.error e => Except.error e
    | Except.ok propKeys =>
      Except.ok (allOfErrs ++
        (if schemaExtraOf required propKeys ≠ [] ∧ require_properties = true then
          [Error.extraParameters (extraParametersMsg (schemaExtraOf required propKeys))]
         else []) ++
        SchemaValidator.default_errors check sd)

/-- `SchemaValidator.iter_errors`: dereference the schema; silently skip
non-dict results; recurse into `allOf` members with
`require_properties=False`; report `required` names missing from
`properties` (when `require_properties`); validate a declared `default`.
`sfuel` bounds the source's recursion into `allOf` members (which can
chase `$ref` cycles). -/
def SchemaValidator.iter_errors (check : Checker) (store : RefStore) (dfuel : Nat) :
    Nat → Json → Bool → Except Fatal (List Error)
  | 0, _, _ => Except.error Fatal.outOfFuel
  | sfuel + 1, schema, require_properties =>
    match liftD (Dereferencer.dereference store dfuel schema) with
    | Except.error e => Except.error e
    | Except.ok schema_deref =>
      if schema_deref.isObj = false then Except.ok []
      else
        match (match schema_deref.get? "allOf" with
               | none => Except.ok []
               | some membersJ =>
                 match pyIterE membersJ with
                 | Except.error e => Except.error e
                 | Except.ok members =>
                   exceptAppendFold
                     (fun m => SchemaValidator.iter_errors check store dfuel sfuel m false)
                     members) with
        | Except.error e => Except.error e
        | Except.ok allOfErrs =>
          SchemaValidator.required_default_part check schema_deref
            require_properties allOfErrs

/-- The legacy `default` paragraph of `ParameterValidator.iter_errors`:
a non-`None` top-level `default` is validated against the parameter
treated as its own schema. -/
def ParameterValidator.default_part (check : Checker) (parameter : Json) : List Error :=
  match parameter.get? "default" with
  | none => []
  | some d => if d ≠ Json.null then check parameter d else []

/-- `ParameterValidator.iter_errors`: validate an embedded `schema`
(dereferenced first) and a legacy non-`None` `default` against the
parameter itself. -/
def ParameterValidator.iter_errors (check : Checker) (store : RefStore)
    (dfuel sfuel : Nat) (parameter : Json) : Except Fatal (List Error) :=
  match (match parameter.get? "schema" with
         | none => Except.ok []
         | some schema =>
           match liftD (Dereferencer.dereference store dfuel schema) with
           | Except.error e => Except.error e
           | Except.ok schema_deref =>
             SchemaValidator.iter_errors check store dfuel sfuel schema_deref true) with
  | Except.error e => Except.error e
  | Except.ok schemaErrs =>
    Except.ok (schemaErrs ++ ParameterValidator.default_part check parameter)

/-- The loop body of `ParametersValidator.iter_errors`, threading the
`seen` set of `(name, in)` pairs. -/
def ParametersValidator.loop (check : Checker) (store : RefStore) (dfuel sfuel : Nat)
    (seen : List (Json × Json)) : List Json → Except Fatal (List Error)
  | [] => Except.ok []
  | parameter :: rest =>
    match liftD (Dereferencer.dereference store dfuel parameter) with
    | Except.error e => Except.error e
    | Except.ok parameter_deref =>
      match ParameterValidator.iter_errors check store dfuel sfuel parameter_deref with
      | Except.error e => Except.error e
      | Except.ok perrs =>
        match pyIndex parameter_deref "name", pyIndex parameter_deref "in" with
        | Except.ok nm, Except.ok loc =>
          match ParametersValidator.loop check store dfuel sfuel
              (seen ++ [(nm, loc)]) rest with
          | Except.error e => Except.error e
          | Except.ok more =>
            Except.ok (perrs ++
              (if (nm, loc) ∈ seen then
                [Error.parameterDuplicate ("Duplicate parameter `" ++ pyStr nm ++ "`")]
               else []) ++ more)
        | Except.error e, _ => Except.error e
        | _, Except.error e => Except.error e

/-- `ParametersValidator.iter_errors`: per-parameter validation plus
duplicate `(name, in)` detection, reported at the second and later
occurrences, in input order. -/
def ParametersValidator.iter_errors (check : Checker) (store : RefStore)
    (dfuel sfuel : Nat) (parameters : Json) : Except Fatal (List Error) :=
  match pyIterE parameters with
  | Except.error e => Except.error e
  | Except.ok items => ParametersValidator.loop check store dfuel sfuel [] items

/-- `OperationValidator._get_path_param_names`: names of the parameters
declared with `in: path` (each parameter dereferenced first). -/
def OperationValidator.get_path_param_names (store : RefStore) (dfuel : Nat) :
    List Json → Except Fatal (List Json)
  | [] => Except.ok []
  | param :: rest =>
    match liftD (Dereferencer.dereference store dfuel param) with
    | Except.error e => Except.error e
    | Except.ok param_deref =>
      match pyIndex param_deref "in" with
      | Except.error e => Except.error e
      | Except.ok loc =>
        if loc = Json.str "path" then
          match pyIndex param_deref "name" with
          | Except.error e => Except.error e
          | Except.ok nm =>
            match OperationValidator.get_path_param_names store dfuel rest with
            | Except.error e => Except.error e
            | Except.ok more => Except.ok (nm :: more)
        else OperationValidator.get_path_param_names store dfuel rest

/-- The message of a `DuplicateOperationIDError`. -/
def duplicateOperationIDMsg (operation_id : Json) (name url : String) : String :=
  "Operation ID \x27" ++ pyStr operation_id ++ "\x27 for \x27" ++ name ++
    "\x27 in \x27" ++ url ++ "\x27 is not unique"

/-- The message of an `UnresolvableParameterError`. -/
def unresolvableParameterMsg (p name url : String) : String :=
  "Path parameter \x27" ++ p ++ "\x27 for \x27" ++ name ++
    "\x27 operation in \x27" ++ url ++ "\x27 was not resolved"

/-- The final placeholder loop of `OperationValidator.iter_errors`: one
`UnresolvableParameterError` per URL placeholder missing from the
collected `in: path` parameter names. -/
def OperationValidator.unresolved_errors (url name : String) (all_params : List Json)
    (placeholders : List String) : List Error :=
  placeholders.filterMap (fun p =>
    if Json.str p ∈ all_params then none
    else some (Error.unresolvableParameter (unresolvableParameterMsg p name url)))

/-- `OperationValidator.iter_errors`: duplicate-`operationId` check
against the shared registry (appending the id, `None` included,
unconditionally), own-`parameters` validation, and resolvability of every
URL-template placeholder against the union of path-level and
operation-level `in: path` parameter names. -/
def OperationValidator.iter_errors (check : Checker) (store : RefStore)
    (dfuel sfuel : Nat) (url name : String) (operation : Json)
    (path_parameters : Json) (seen_ids : List Json) :
    Except Fatal (List Error × List Json) :=
  match liftD (Dereferencer.dereference store dfuel operation) with
  | Except.error e => Except.error e
  | Except.ok operation_deref =>
    match pyGet operation_deref "operationId" with
    | Except.error e => Except.error e
    | Except.ok operation_id =>
      match pyGetD operation_deref "parameters" (Json.arr []) with
      | Except.error e => Except.error e
      | Except.ok parameters =>
        match ParametersValidator.iter_errors check store dfuel sfuel parameters with
        | Except.error e => Except.error e
        | Except.ok paramErrs =>
          match pyIterE (if path_parameters.isTruthy then path_parameters
                         else Json.arr []),
              pyIterE parameters with
          | Except.ok ppItems, Except.ok opItems =>
            match OperationValidator.get_path_param_names store dfuel ppItems,
                OperationValidator.get_path_param_names store dfuel opItems with
            | Except.ok names1, Except.ok names2 =>
              match OperationValidator.get_path_params_from_url url with
              | none => Except.error Fatal.typeError
              | some placeholders =>
                Except.ok ((if operation_id ≠ Json.null ∧ operation_id ∈ seen_ids then
                    [Error.duplicateOperationID
                      (duplicateOperationIDMsg operation_id name url)]
                  else []) ++ paramErrs ++
                  OperationValidator.unresolved_errors url name
                    (dedupFirst (names1 ++ names2)) placeholders,
                  seen_ids ++ [operation_id])
            | Except.error e, _ => Except.error e
            | _, Except.error e => Except.error e
          | Except.error e, _ => Except.error e
          | _, Except.error e => Except.error e

/-- The eight HTTP method keys recognised by `PathItemValidator`. -/
def PathItemValidator.OPERATIONS : List String :=
  ["get", "put", "post", "delete", "options", "head", "patch", "trace"]

/-- The method-dispatch loop of `PathItemValidator.iter_errors`,
threading the operation-id registry through each delegated operation. -/
def PathItemValidator.opsLoop (check : Checker) (store : RefStore) (dfuel sfuel : Nat)
    (url : String) (parameters : Json) :
    List (String × Json) → List Json → Except Fatal (List Error × List Json)
  | [], seen => Except.ok ([], seen)
  | (field_name, operation) :: rest, seen =>
    if field_name ∈ PathItemValidator.OPERATIONS then
      match OperationValidator.iter_errors check store dfuel sfuel url field_name
          operation parameters seen with
      | Except.error e => Except.error e
      | Except.ok (errs, seen') =>
        match PathItemValidator.opsLoop check store dfuel sfuel url parameters
            rest seen' with
        | Except.error e => Except.error e
        | Except.ok (more, seen'') => Except.ok (errs ++ more, seen'')
    else PathItemValidator.opsLoop check store dfuel sfuel url parameters rest seen

/-- `PathItemValidator.iter_errors`: dereference the path item, validate
its `parameters` (taken from the dereferenced node), then iterate the
items of the ORIGINAL `path_item` argument (source line 217 loops over
`path_item`, not `path_item_deref`), delegating each recognised HTTP
method to `OperationValidator` with the dereferenced node's path-level
parameters and the shared registry. -/
def PathItemValidator.iter_errors (check : Checker) (store : RefStore)
    (dfuel sfuel : Nat) (url : String) (path_item : Json) (seen : List Json) :
    Except Fatal (List Error × List Json) :=
  match liftD (Dereferencer.dereference store dfuel path_item) with
  | Except.error e => Except.error e
  | Except.ok path_item_deref =>
    match pyGetD path_item_deref "parameters" (Json.arr []) with
    | Except.error e => Except.error e
    | Except.ok parameters =>
      match ParametersValidator.iter_errors check store dfuel sfuel parameters with
      | Except.error e => Except.error e
      | Except.ok paramErrs =>
        match pyItemsE path_item with
        | Except.error e => Except.error e
        | Except.ok fields =>
          match PathItemValidator.opsLoop check store dfuel sfuel url parameters
              fields seen with
          | Except.error e => Except.error e
          | Except.ok (opErrs, seen') => Except.ok (paramErrs ++ opErrs, seen')

/-- The same validator as the specification words it (its §4.6 sentence
behind claim C2): the HTTP method entries are taken from the
DEREFERENCED path item rather than from the original argument.  Kept
separate so the two readings can be compared. -/
def PathItemValidator.iter_errors_from_spec (check : Checker) (store : RefStore)
    (dfuel sfuel : Nat) (url : String) (path_item : Json) (seen : List Json) :
    Except Fatal (List Error × List Json) :=
  match liftD (Dereferencer.dereference store dfuel path_item) with
  | Except.error e => Except.error e
  | Except.ok path_item_deref =>
    match pyGetD path_item_deref "parameters" (Json.arr []) with
    | Except.error e => Except.error e
    | Except.ok parameters =>
      match ParametersValidator.iter_errors check store dfuel sfuel parameters with
      | Except.error e => Except.error e
      | Except.ok paramErrs =>
        match pyItemsE path_item_deref with
        | Except.error e => Except.error e
        | Except.ok fields =>
          match PathItemValidator.opsLoop check store dfuel sfuel url parameters
              fields seen with
          | Except.error e => Except.error e
          | Except.ok (opErrs, seen') => Except.ok (paramErrs ++ opErrs, seen')

/-- `PathValidator.iter_errors`: dereference the path item and delegate
to `PathItemValidator`. -/
def PathValidator.iter_errors (check : Checker) (store : RefStore)
    (dfuel sfuel : Nat) (url : String) (path_item : Json) (seen : List Json) :
    Except Fatal (List Error × List Json) :=
  match liftD (Dereferencer.dereference store dfuel path_item) with
  | Except.error e => Except.error e
  | Except.ok path_item_deref =>
    PathItemValidator.iter_errors check store dfuel sfuel url path_item_deref seen

/-- The per-URL loop of `PathsValidator.iter_errors`. -/
def PathsValidator.loop (check : Checker) (store : RefStore) (dfuel sfuel : Nat) :
    List (String × Json) → List Json → Except Fatal (List Error × List Json)
  | [], seen => Except.ok ([], seen)
  | (url, path_item) :: rest, seen =>
    match PathValidator.iter_errors check store dfuel sfuel url path_item seen with
    | Except.error e => Except.error e
    | Except.ok (errs, seen') =>
      match PathsValidator.loop check store dfuel sfuel rest seen' with
      | Except.error e => Except.error e
      | Except.ok (more, seen'') => Except.ok (errs ++ more, seen'')

/-- `PathsValidator.iter_errors`: dereference the `paths` container and
validate each URL's path item, threading one shared operation-id
registry across the whole traversal. -/
def PathsValidator.iter_errors (check : Checker) (store : RefStore)
    (dfuel sfuel : Nat) (paths : Json) (seen : List Json) :
    Except Fatal (List Error × List Json) :=
  match liftD (Dereferencer.dereference store dfuel paths) with
  | Except.error e => Except.error e
  | Except.ok paths_deref =>
    match pyItemsE paths_deref with
    | Except.error e => Except.error e
    | Except.ok items => PathsValidator.loop check store dfuel sfuel items seen

/-- `SchemasValidator.iter_errors`: dereference the schemas container and
validate every named schema. -/
def SchemasValidator.iter_errors (check : Checker) (store : RefStore)
    (dfuel sfuel : Nat) (schemas : Json) : Except Fatal (List Error) :=
  match liftD (Dereferencer.dereference store dfuel schemas) with
  | Except.error e => Except.error e
  | Except.ok schemas_deref =>
    match pyItemsE schemas_deref with
    | Except.error e => Except.error e
    | Except.ok items =>
      exceptAppendFold
        (fun p => SchemaValidator.iter_errors check store dfuel sfuel p.2 true) items

/-- `ComponentsValidator.iter_errors`: dereference `components` and
validate its `schemas`. -/
def ComponentsValidator.iter_errors (check : Checker) (store : RefStore)
    (dfuel sfuel : Nat) (components : Json) : Except Fatal (List Error) :=
  match liftD (Dereferencer.dereference store dfuel components) with
  | Except.error e => Except.error e
  | Except.ok components_deref =>
    match pyGetD components_deref "schemas" (Json.obj []) with
    | Except.error e => Except.error e
    | Except.ok schemas => SchemasValidator.iter_errors check store dfuel sfuel schemas

/-- `SpecValidator.iter_errors`: the whole-document conformance pass
(the external engine, `docCheck`), then the `paths` traversal (with a
fresh operation-id registry), then the `components` traversal. -/
def SpecValidator.iter_errors (docCheck : Json → List Error) (check : Checker)
    (store : RefStore) (dfuel sfuel : Nat) (spec : Json) :
    Except Fatal (List Error) :=
  match pyGetD spec "paths" (Json.obj []) with
  | Except.error e => Except.error e
  | Except.ok paths =>
    match PathsValidator.iter_errors check store dfuel sfuel paths [] with
    | Except.error e => Except.error e
    | Except.ok (pathsErrs, _) =>
      match pyGetD spec "components" (Json.obj []) with
      | Except.error e => Except.error e
      | Except.ok components =>
        match ComponentsValidator.iter_errors check store dfuel sfuel components with
        | Except.error e => Except.error e
        | Except.ok compErrs => Except.ok (docCheck spec ++ pathsErrs ++ compErrs)

/-- `SpecValidator.validate`: `for err in self.iter_errors(...): raise
err` — surface the first yielded error, if any. -/
def SpecValidator.validate (docCheck : Json → List Error) (check : Checker)
    (store : RefStore) (dfuel sfuel : Nat) (spec : Json) :
    Except Fatal (Option Error) :=
  match SpecValidator.iter_errors docCheck check store dfuel sfuel spec with
  | Except.error e => Except.error e
  | Except.ok [] => Except.ok none
  | Except.ok (err :: _) => Except.ok (some err)

/-- A non-reference node dereferences to itself whenever any fuel is
available (the `item is None or not is_ref(item)` early return). -/
theorem dereference_not_ref_fix (store : RefStore) (fuel : Nat) (j : Json)
    (h : is_ref j = false) :
    Dereferencer.dereference store (fuel + 1) j = DerefResult.ok j := by
  simp [Dereferencer.dereference, h]

/-- The in-memory document of a circular reference chain
`#/A -> #/B -> #/A`. -/
def circularStore : RefStore :=
  [("#/A", Json.obj [("$ref", Json.str "#/B")]),
   ("#/B", Json.obj [("$ref", Json.str "#/A")])]

/-- C1: on the circular chain `#/A -> #/B -> #/A` the source
`Dereferencer.dereference` recurses without bound: in the fuel model, no
amount of fuel ever produces a result or even a distinguishable failure
— every run merely exhausts its fuel.  The claimed behaviour (terminate
with a distinguishable circular-reference failure) does not hold on the
code; the specification itself flags this as a required fix. -/
theorem dereference_circular_chain_diverges :
    ∀ fuel : Nat,
      Dereferencer.dereference circularStore fuel
          (Json.obj [("$ref", Json.str "#/A")]) = DerefResult.outOfFuel ∧
      Dereferencer.dereference circularStore fuel
          (Json.obj [("$ref", Json.str "#/B")]) = DerefResult.outOfFuel := by
  intro fuel
  induction fuel with
  | zero => exact ⟨rfl, rfl⟩
  | succ n ih => exact ⟨ih.2, ih.1⟩

/-- C10: whenever `Dereferencer.dereference` terminates with a node, that
node is not itself a reference node, and hence dereferencing is
idempotent: feeding the result back in returns it unchanged. -/
theorem dereference_never_returns_ref (store : RefStore) (fuel : Nat) (x j : Json)
    (h : Dereferencer.dereference store fuel x = DerefResult.ok j) :
    is_ref j = false ∧ Dereferencer.dereference store fuel j = DerefResult.ok j := by
  induction fuel generalizing x with
  | zero => exact absurd h (by simp [Dereferencer.dereference])
  | succ n ih =>
    rw [Dereferencer.dereference] at h
    split at h
    · rename_i hx
      cases h
      exact ⟨hx, by rw [Dereferencer.dereference, if_pos hx]⟩
    · split at h
      · split at h
        · rename_i target heq
          split at h
          · obtain ⟨hj, _⟩ := ih target h
            exact ⟨hj, by rw [Dereferencer.dereference, if_pos hj]⟩
          · rename_i ht
            cases h
            have ht' : is_ref j = false := by
              cases hb : is_ref j
              · rfl
              · exact absurd hb ht
            exact ⟨ht', by rw [Dereferencer.dereference, if_pos ht']⟩
        · exact absurd h (by simp)
      · exact absurd h (by simp)

/-- Witness for C10 at a one-step reference to a concrete object. -/
theorem dereference_never_returns_ref_witness :
    is_ref (Json.obj [("x", Json.num 1)]) = false ∧
    Dereferencer.dereference [("#/T", Json.obj [("x", Json.num 1)])] 2
        (Json.obj [("x", Json.num 1)]) =
      DerefResult.ok (Json.obj [("x", Json.num 1)]) :=
  dereference_never_returns_ref [("#/T", Json.obj [("x", Json.num 1)])] 2
    (Json.obj [("$ref", Json.str "#/T")]) (Json.obj [("x", Json.num 1)]) rfl

/-- C9: `SpecValidator.validate` surfaces exactly the first error of the
sequence produced by `iter_errors` (and the same fatal outcome
otherwise); in particular it raises nothing exactly when `iter_errors`
yields the empty sequence. -/
theorem validate_raises_first_iter_error (docCheck : Json → List Error)
    (check : Checker) (store : RefStore) (dfuel sfuel : Nat) (spec : Json) :
    SpecValidator.validate docCheck check store dfuel sfuel spec =
      (SpecValidator.iter_errors docCheck check store dfuel sfuel spec).map List.head? ∧
    (SpecValidator.validate docCheck check store dfuel sfuel spec = Except.ok none ↔
      SpecValidator.iter_errors docCheck check store dfuel sfuel spec = Except.ok []) := by
  cases hm : SpecValidator.iter_errors docCheck check store dfuel sfuel spec with
  | error e =>
    constructor <;> simp [SpecValidator.validate, hm, Except.map]
  | ok errs =>
    cases errs with
    | nil => constructor <;> simp [SpecValidator.validate, hm, Except.map]
    | cons e rest => constructor <;> simp [SpecValidator.validate, hm, Except.map]

/-- The composed schema of claim C5: no single `allOf` member is
self-sufficient, but the composition is. -/
def allOfExample : Json :=
  Json.obj [("allOf", Json.arr [
    Json.obj [("required", Json.arr [Json.str "a"])],
    Json.obj [("properties", Json.obj [("a", Json.obj [])])]])]

def allOfProbeA : Json := Json.obj [("default", Json.num 1)]

def allOfProbeB : Json := Json.obj [("default", Json.num 2)]

/-- C5: `SchemaValidator` recurses into every `allOf` member with
`require_properties=False`.  First conjunct: the claim's schema — whose
first member has `required` not covered by its own `properties` —
produces no error at all.  Second conjunct: the recursion really visits
every member (each member's declared `default` is delegated to the value
checker, whose output surfaces verbatim and in member order). -/
theorem schema_allOf_members_recursed_without_require (check : Checker)
    (store : RefStore) :
    SchemaValidator.iter_errors check store 1 3 allOfExample true = Except.ok [] ∧
    SchemaValidator.iter_errors check store 1 3
        (Json.obj [("allOf", Json.arr [allOfProbeA, allOfProbeB])]) true =
      Except.ok (check allOfProbeA (Json.num 1) ++ check allOfProbeB (Json.num 2)) := by
  constructor
  · rfl
  · have h1 : SchemaValidator.iter_errors check store 1 3
        (Json.obj [("allOf", Json.arr [allOfProbeA, allOfProbeB])]) true =
      Except.ok (((check allOfProbeA (Json.num 1) ++
        (check allOfProbeB (Json.num 2) ++ [])) ++ []) ++ []) := rfl
    simpa using h1

/-- A conformance engine reporting no violation (used to instantiate
concrete runs). -/
def emptyChecker : Checker := fun _ _ => []

theorem emptyChecker_kinds :
    ∀ s v e, e ∈ emptyChecker s v → e.isSchemaViolation = true := by
  intro s v e h
  exact absurd h (List.not_mem_nil e)

def c2Store : RefStore := [("#/PI", Json.obj [("get", Json.obj [])])]

def c2PathItem : Json := Json.obj [("$ref", Json.str "#/PI")]

/-- C2 counterexample: on a path item node that is itself a reference
node, `PathItemValidator.iter_errors` iterates the keys of the ORIGINAL
node (only `$ref`, no HTTP method), so it delegates no operation at all:
no unresolvable-placeholder error is reported and the registry stays
empty.  Under the claim's reading (the dereferenced node's entries) the
`get` operation would be delegated: its absent id would be appended to
the registry and the `{id}` placeholder reported unresolvable. -/
theorem pathItem_operations_from_raw_node_cex :
    PathItemValidator.iter_errors emptyChecker c2Store 2 2 "/x/{id}" c2PathItem [] =
      Except.ok ([], []) ∧
    PathItemValidator.iter_errors_from_spec emptyChecker c2Store 2 2 "/x/{id}" c2PathItem [] =
      Except.ok ([Error.unresolvableParameter
          "Path parameter \x27id\x27 for \x27get\x27 operation in \x27/x/{id}\x27 was not resolved"],
        [Json.null]) :=
  ⟨rfl, rfl⟩

/-- C2 amended: when the path item is not itself a reference node — as
`PathValidator.iter_errors` guarantees by dereferencing before
delegating — dereferencing it is the identity, so the code and the
claim's reading (operations taken from the dereferenced path item, each
passed the dereferenced node's path-level `parameters` and the shared
registry) coincide. -/
theorem pathItem_operations_amended (check : Checker) (store : RefStore)
    (dfuel sfuel : Nat) (url : String) (path_item : Json) (seen : List Json)
    (href : is_ref path_item = false) (hdf : 1 ≤ dfuel) :
    PathItemValidator.iter_errors check store dfuel sfuel url path_item seen =
      PathItemValidator.iter_errors_from_spec check store dfuel sfuel url path_item seen := by
  obtain ⟨d, rfl⟩ : ∃ d, dfuel = d + 1 := ⟨dfuel - 1, by omega⟩
  rw [PathItemValidator.iter_errors, PathItemValidator.iter_errors_from_spec,
    dereference_not_ref_fix store d path_item href]
  rfl

/-- Witness for the amended C2 at a concrete non-reference path item. -/
theorem pathItem_operations_amended_witness :
    PathItemValidator.iter_errors emptyChecker c2Store 1 2 "/x/{id}"
        (Json.obj [("get", Json.obj [])]) [] =
      PathItemValidator.iter_errors_from_spec emptyChecker c2Store 1 2 "/x/{id}"
        (Json.obj [("get", Json.obj [])]) [] :=
  pathItem_operations_amended emptyChecker c2Store 1 2 "/x/{id}"
    (Json.obj [("get", Json.obj [])]) [] rfl (Nat.le_refl 1)

theorem pyIndex_ok (x : Json) (k : String) (v : Json) (h : pyIndex x k = Except.ok v) :
    x.get? k = some v := by
  unfold pyIndex at h
  cases hg : x.get? k with
  | none => rw [hg] at h; exact absurd h (by simp)
  | some w => rw [hg] at h; cases h; rfl

theorem pyGet_ok (x : Json) (k : String) (v : Json) (h : pyGet x k = Except.ok v) :
    v = (x.get? k).getD Json.null := by
  cases x
  case obj fields => simp only [pyGet, Except.ok.injEq] at h; exact h.symm
  all_goals exact absurd h (by simp [pyGet])

theorem pyGetD_ok (x : Json) (k : String) (d v : Json) (h : pyGetD x k d = Except.ok v) :
    v = (x.get? k).getD d := by
  cases x
  case obj fields => simp only [pyGetD, Except.ok.injEq] at h; exact h.symm
  all_goals exact absurd h (by simp [pyGetD])

theorem mem_dedupFirstAux :
    ∀ (l : List Json) (seen : List Json) (a : Json),
      a ∈ dedupFirstAux seen l ↔ a ∈ l ∧ a ∉ seen := by
  intro l
  induction l with
  | nil => intro seen a; simp [dedupFirstAux]
  | cons x xs ih =>
    intro seen a
    rw [dedupFirstAux]
    by_cases hx : x ∈ seen
    · rw [if_pos hx, ih]
      constructor
      · rintro ⟨h1, h2⟩
        exact ⟨List.mem_cons_of_mem _ h1, h2⟩
      · rintro ⟨h1, h2⟩
        rcases List.mem_cons.mp h1 with rfl | h1
        · exact absurd hx h2
        · exact ⟨h1, h2⟩
    · rw [if_neg hx]
      simp only [List.mem_cons, ih]
      constructor
      · rintro (rfl | ⟨h1, h2⟩)
        · exact ⟨Or.inl rfl, hx⟩
        · refine ⟨Or.inr h1, fun hs => h2 (List.mem_append_left _ hs)⟩
      · rintro ⟨rfl | h1, h2⟩
        · exact Or.inl rfl
        · by_cases hax : a = x
          · exact Or.inl hax
          · refine Or.inr ⟨h1, fun hs => ?_⟩
            rcases List.mem_append.mp hs with hs | hs
            · exact h2 hs
            · exact hax (List.mem_singleton.mp hs)

theorem mem_dedupFirst (l : List Json) (a : Json) : a ∈ dedupFirst l ↔ a ∈ l := by
  rw [dedupFirst, mem_dedupFirstAux]
  simp

theorem exceptAppendFold_ok_mem {α : Type} (f : α → Except Fatal (List Error)) :
    ∀ (l : List α) (errs : List Error), exceptAppendFold f l = Except.ok errs →
      ∀ e ∈ errs, ∃ m ∈ l, ∃ es, f m = Except.ok es ∧ e ∈ es := by
  intro l
  induction l with
  | nil =>
    intro errs h e he
    rw [exceptAppendFold] at h
    cases h
    simp at he
  | cons x xs ih =>
    intro errs h e he
    rw [exceptAppendFold] at h
    split at h
    · exact absurd h (by simp)
    · rename_i errs1 hfx
      split at h
      · exact absurd h (by simp)
      · rename_i more hmore
        cases h
        rcases List.mem_append.mp he with he1 | he1
        · exact ⟨x, List.mem_cons_self x xs, errs1, hfx, he1⟩
        · obtain ⟨m, hm, es, hfm, hem⟩ := ih more hmore e he1
          exact ⟨m, List.mem_cons_of_mem _ hm, es, hfm, hem⟩

theorem exceptAppendFold_congr {α : Type} (f g : α → Except Fatal (List Error)) :
    ∀ (l : List α), (∀ m ∈ l, f m = g m) →
      exceptAppendFold f l = exceptAppendFold g l := by
  intro l
  induction l with
  | nil => intro _; rfl
  | cons x xs ih =>
    intro hfg
    rw [exceptAppendFold, exceptAppendFold, hfg x (List.mem_cons_self x xs),
      ih (fun m hm => hfg m (List.mem_cons_of_mem _ hm))]

theorem default_errors_mem (check : Checker) (sd : Json) (e : Error)
    (he : e ∈ SchemaValidator.default_errors check sd) :
    ∃ d, sd.get? "default" = some d ∧ e ∈ check sd d := by
  unfold SchemaValidator.default_errors at he
  split at he
  · simp at he
  · rename_i d hd
    simp only [] at he
    split at he
    · exact ⟨d, hd, he⟩
    · simp at he


theorem required_default_part_ok_inv (check : Checker) (sd : Json) (rp : Bool)
    (allOfErrs errs : List Error)
    (h : SchemaValidator.required_default_part check sd rp allOfErrs = Except.ok errs) :
    ∃ required propKeys,
      pyIterE ((sd.get? "required").getD (Json.arr [])) = Except.ok required ∧
      pyKeysE ((sd.get? "properties").getD (Json.obj [])) = Except.ok propKeys ∧
      errs = allOfErrs ++
        (if schemaExtraOf required propKeys ≠ [] ∧ rp = true then
          [Error.extraParameters (extraParametersMsg (schemaExtraOf required propKeys))]
         else []) ++
        SchemaValidator.default_errors check sd := by
  unfold SchemaValidator.required_default_part at h
  split at h
  · exact absurd h (by simp)
  · rename_i required hreq
    split at h
    · exact absurd h (by simp)
    · rename_i propKeys hprops
      cases h
      exact ⟨required, propKeys, hreq, hprops, rfl⟩

theorem liftD_ok (r : DerefResult) (j : Json) (h : liftD r = Except.ok j) :
    r = DerefResult.ok j := by
  cases r <;> simp_all [liftD]

/-- Inversion of one successful step of `SchemaValidator.iter_errors`. -/
theorem schemaIterErrors_ok_inv (check : Checker) (store : RefStore) (dfuel sfuel : Nat)
    (schema : Json) (rp : Bool) (errs : List Error)
    (h : SchemaValidator.iter_errors check store dfuel (sfuel + 1) schema rp = Except.ok errs) :
    ∃ sd, Dereferencer.dereference store dfuel schema = DerefResult.ok sd ∧
      ((sd.isObj = false ∧ errs = []) ∨
        (sd.isObj = true ∧ ∃ allOfErrs,
          ((sd.get? "allOf" = none ∧ allOfErrs = ([] : List Error)) ∨
            (∃ mj members, sd.get? "allOf" = some mj ∧ pyIterE mj = Except.ok members ∧
              exceptAppendFold (fun m =>
                  SchemaValidator.iter_errors check store dfuel sfuel m false) members =
                Except.ok allOfErrs)) ∧
          SchemaValidator.required_default_part check sd rp allOfErrs = Except.ok errs)) := by
  rw [SchemaValidator.iter_errors] at h
  split at h
  · exact absurd h (by simp)
  · rename_i sd hsd
    refine ⟨sd, liftD_ok _ _ hsd, ?_⟩
    split at h
    · rename_i hobj
      left
      cases h
      exact ⟨hobj, rfl⟩
    · rename_i hobj
      right
      refine ⟨by revert hobj; cases sd.isObj <;> simp, ?_⟩
      split at h
      · exact absurd h (by simp)
      · rename_i allOfErrs hallOf
        refine ⟨allOfErrs, ?_, h⟩
        revert hallOf
        split
        · rename_i hnone
          intro hallOf
          cases hallOf
          exact Or.inl ⟨hnone, rfl⟩
        · rename_i mj hmj
          split
          · intro hallOf; exact absurd hallOf (by simp)
          · rename_i members hmembers
            intro hallOf
            exact Or.inr ⟨mj, members, hmj, hmembers, hallOf⟩

/-- With a checker that only reports schema violations, every error from
`SchemaValidator.iter_errors` is a schema violation or — only when
`require_properties` is set — an extra-parameters finding. -/
theorem schemaIterErrors_kinds (check : Checker) (store : RefStore) (dfuel : Nat)
    (hcheck : ∀ s v e, e ∈ check s v → e.isSchemaViolation = true) :
    ∀ (sfuel : Nat) (schema : Json) (rp : Bool) (errs : List Error),
      SchemaValidator.iter_errors check store dfuel sfuel schema rp = Except.ok errs →
      ∀ e ∈ errs, e.isSchemaViolation = true ∨ (rp = true ∧ e.isExtraParameters = true) := by
  intro sfuel
  induction sfuel with
  | zero =>
    intro schema rp errs h
    exact absurd h (by simp [SchemaValidator.iter_errors])
  | succ n ih =>
    intro schema rp errs h e he
    obtain ⟨sd, hsd, hrest⟩ := schemaIterErrors_ok_inv check store dfuel n schema rp errs h
    rcases hrest with ⟨_, rfl⟩ | ⟨hobj, allOfErrs, hallOf, htail⟩
    · simp at he
    · obtain ⟨required, propKeys, hreq, hprops, rfl⟩ :=
        required_default_part_ok_inv check sd rp allOfErrs _ htail
      rcases List.mem_append.mp he with he1 | he1
      · rcases List.mem_append.mp he1 with he2 | he2
        · rcases hallOf with ⟨_, rfl⟩ | ⟨mj, members, _, _, hfold⟩
          · simp at he2
          · obtain ⟨m, _, es, hfm, hem⟩ :=
              exceptAppendFold_ok_mem _ members allOfErrs hfold e he2
            rcases ih m false es hfm e hem with hsv | ⟨hfalse, _⟩
            · exact Or.inl hsv
            · exact absurd hfalse (by simp)
        · revert he2
          split
          · rename_i hcond
            intro he2
            rw [List.mem_singleton.mp he2]
            exact Or.inr ⟨hcond.2, rfl⟩
          · intro he2; simp at he2
      · obtain ⟨d, _, hcd⟩ := default_errors_mem check sd e he1
        exact Or.inl (hcheck sd d e hcd)

/-- Error kinds produced by a single parameter's validation. -/
theorem parameterIterErrors_kinds (check : Checker) (store : RefStore)
    (dfuel sfuel : Nat)
    (hcheck : ∀ s v e, e ∈ check s v → e.isSchemaViolation = true)
    (parameter : Json) (errs : List Error)
    (h : ParameterValidator.iter_errors check store dfuel sfuel parameter = Except.ok errs) :
    ∀ e ∈ errs, e.isSchemaViolation = true ∨ e.isExtraParameters = true := by
  intro e he
  unfold ParameterValidator.iter_errors at h
  split at h
  · exact absurd h (by simp)
  · rename_i schemaErrs hs
    cases h
    rcases List.mem_append.mp he with he1 | he1
    · revert hs
      split
      · intro hs
        cases hs
        simp at he1
      · split
        · intro hs; exact absurd hs (by simp)
        · rename_i sdref hsd
          intro hs
          rcases schemaIterErrors_kinds check store dfuel hcheck sfuel sdref true
              schemaErrs hs e he1 with hsv | ⟨_, hex⟩
          · exact Or.inl hsv
          · exact Or.inr hex
    · unfold ParameterValidator.default_part at he1
      revert he1
      split
      · intro he1; simp at he1
      · rename_i d hd
        split
        · intro he1
          exact Or.inl (hcheck parameter d e he1)
        · intro he1; simp at he1

/-- Error kinds produced by a parameter list's validation. -/
theorem parametersLoop_kinds (check : Checker) (store : RefStore) (dfuel sfuel : Nat)
    (hcheck : ∀ s v e, e ∈ check s v → e.isSchemaViolation = true) :
    ∀ (ps : List Json) (seen : List (Json × Json)) (errs : List Error),
      ParametersValidator.loop check store dfuel sfuel seen ps = Except.ok errs →
      ∀ e ∈ errs, e.isSchemaViolation = true ∨ e.isExtraParameters = true ∨
        e.isParameterDuplicate = true := by
  intro ps
  induction ps with
  | nil =>
    intro seen errs h e he
    rw [ParametersValidator.loop] at h
    cases h
    simp at he
  | cons p rest ih =>
    intro seen errs h e he
    rw [ParametersValidator.loop] at h
    split at h
    · exact absurd h (by simp)
    · rename_i pd hpd
      split at h
      · exact absurd h (by simp)
      · rename_i perrs hperrs
        split at h
        · rename_i nm loc hnm hloc
          split at h
          · exact absurd h (by simp)
          · rename_i more hmore
            cases h
            rcases List.mem_append.mp he with he1 | he1
            · rcases List.mem_append.mp he1 with he2 | he2
              · rcases parameterIterErrors_kinds check store dfuel sfuel hcheck pd
                    perrs hperrs e he2 with hsv | hex
                · exact Or.inl hsv
                · exact Or.inr (Or.inl hex)
              · revert he2
                split
                · intro he2
                  rw [List.mem_singleton.mp he2]
                  exact Or.inr (Or.inr rfl)
                · intro he2; simp at he2
            · exact ih _ more hmore e he1
        · exact absurd h (by simp)
        · exact absurd h (by simp)

/-- Error kinds produced by `ParametersValidator.iter_errors`. -/
theorem parametersIterErrors_kinds (check : Checker) (store : RefStore)
    (dfuel sfuel : Nat)
    (hcheck : ∀ s v e, e ∈ check s v → e.isSchemaViolation = true)
    (parameters : Json) (errs : List Error)
    (h : ParametersValidator.iter_errors check store dfuel sfuel parameters =
      Except.ok errs) :
    ∀ e ∈ errs, e.isSchemaViolation = true ∨ e.isExtraParameters = true ∨
      e.isParameterDuplicate = true := by
  unfold ParametersValidator.iter_errors at h
  split at h
  · exact absurd h (by simp)
  · rename_i items hitems
    exact parametersLoop_kinds check store dfuel sfuel hcheck items [] errs h

theorem get?_some_isObj (x : Json) (k : String) (v : Json) (h : x.get? k = some v) :
    x.isObj = true := by
  cases x <;> simp [Json.get?, Json.isObj] at h ⊢

/-- C6: with `require_properties` set, a schema step emits exactly one
`ExtraParametersError` when `required` minus the `properties` keys is
non-empty and none when it is empty; with `require_properties` unset it
emits none.  The third conjunct checks the claim's concrete example,
message included. -/
theorem schema_extra_parameters_exactly_one (check : Checker) (store : RefStore)
    (dfuel sfuel : Nat) (schema sd : Json) (reqs : List Json)
    (props : List (String × Json)) (errs errsNo : List Error)
    (hcheck : ∀ s v e, e ∈ check s v → e.isSchemaViolation = true)
    (hsd : Dereferencer.dereference store dfuel schema = DerefResult.ok sd)
    (hreq : (sd.get? "required").getD (Json.arr []) = Json.arr reqs)
    (hprops : (sd.get? "properties").getD (Json.obj []) = Json.obj props)
    (h : SchemaValidator.iter_errors check store dfuel (sfuel + 1) schema true =
      Except.ok errs)
    (hno : SchemaValidator.iter_errors check store dfuel (sfuel + 1) schema false =
      Except.ok errsNo) :
    errs.countP (fun e => e.isExtraParameters) =
      (if schemaExtraOf reqs (props.map Prod.fst) = [] then 0 else 1) ∧
    errsNo.countP (fun e => e.isExtraParameters) = 0 ∧
    SchemaValidator.iter_errors check store 1 1
        (Json.obj [("required", Json.arr [Json.str "a", Json.str "b"]),
                   ("properties", Json.obj [("a", Json.obj [])])]) true =
      Except.ok [Error.extraParameters
        "Required list has not defined properties: [\x27b\x27]"] := by
  have hkindsNo : ∀ e ∈ errsNo, e.isExtraParameters = false := by
    intro e he
    rcases schemaIterErrors_kinds check store dfuel hcheck (sfuel + 1) schema false
        errsNo hno e he with h1 | ⟨h1, _⟩
    · cases e <;> simp_all [Error.isSchemaViolation, Error.isExtraParameters]
    · exact absurd h1 (by simp)
  refine ⟨?_, ?_, rfl⟩
  · obtain ⟨sd2, hsd2, hrest⟩ := schemaIterErrors_ok_inv check store dfuel sfuel
      schema true errs h
    rw [hsd] at hsd2
    cases hsd2
    rcases hrest with ⟨hobj, rfl⟩ | ⟨hobj, allOfErrs, hallOf, htail⟩
    · have : sd.get? "required" = none := by
        cases sd <;> simp_all [Json.get?, Json.isObj]
      rw [this] at hreq
      simp only [Option.getD] at hreq
      cases hreq
      simp [schemaExtraOf, dedupFirst, dedupFirstAux]
    · obtain ⟨required, propKeys, hreq2, hprops2, rfl⟩ :=
        required_default_part_ok_inv check sd true allOfErrs _ htail
      rw [hreq] at hreq2
      rw [hprops] at hprops2
      simp only [pyIterE, Except.ok.injEq] at hreq2
      simp only [pyKeysE, Except.ok.injEq] at hprops2
      cases hreq2
      cases hprops2
      rw [List.countP_append, List.countP_append]
      have hallzero : allOfErrs.countP (fun e => e.isExtraParameters) = 0 := by
        rw [List.countP_eq_zero]
        intro e he
        rcases hallOf with ⟨_, rfl⟩ | ⟨mj, members, _, _, hfold⟩
        · simp at he
        · obtain ⟨m, _, es, hfm, hem⟩ :=
            exceptAppendFold_ok_mem _ members allOfErrs hfold e he
          rcases schemaIterErrors_kinds check store dfuel hcheck sfuel m false
              es hfm e hem with h1 | ⟨h1, _⟩
          · cases e <;> simp_all [Error.isSchemaViolation, Error.isExtraParameters]
          · exact absurd h1 (by simp)
      have hdefzero :
          (SchemaValidator.default_errors check sd).countP
            (fun e => e.isExtraParameters) = 0 := by
        rw [List.countP_eq_zero]
        intro e he
        obtain ⟨d, _, hcd⟩ := default_errors_mem check sd e he
        have := hcheck sd d e hcd
        cases e <;> simp_all [Error.isSchemaViolation, Error.isExtraParameters]
      rw [hallzero, hdefzero]
      by_cases hex : schemaExtraOf reqs (props.map Prod.fst) = []
      · rw [if_pos hex]
        rw [if_neg (by simp [hex])]
        simp
      · rw [if_neg hex]
        rw [if_pos ⟨hex, rfl⟩]
        simp [List.countP_cons, Error.isExtraParameters]
  · rw [List.countP_eq_zero]
    intro e he
    simp [hkindsNo e he]

/-- Witness for C6 at the claim's concrete schema. -/
theorem schema_extra_parameters_exactly_one_witness :
    ([Error.extraParameters
        "Required list has not defined properties: [\x27b\x27]"].countP
        (fun e => e.isExtraParameters) =
      (if schemaExtraOf [Json.str "a", Json.str "b"]
          ([("a", Json.obj [])].map Prod.fst) = [] then 0 else 1)) ∧
    (([] : List Error).countP (fun e => e.isExtraParameters) = 0) ∧
    SchemaValidator.iter_errors emptyChecker [] 1 1
        (Json.obj [("required", Json.arr [Json.str "a", Json.str "b"]),
                   ("properties", Json.obj [("a", Json.obj [])])]) true =
      Except.ok [Error.extraParameters
        "Required list has not defined properties: [\x27b\x27]"] :=
  schema_extra_parameters_exactly_one emptyChecker [] 1 0
    (Json.obj [("required", Json.arr [Json.str "a", Json.str "b"]),
               ("properties", Json.obj [("a", Json.obj [])])])
    (Json.obj [("required", Json.arr [Json.str "a", Json.str "b"]),
               ("properties", Json.obj [("a", Json.obj [])])])
    [Json.str "a", Json.str "b"] [("a", Json.obj [])]
    [Error.extraParameters "Required list has not defined properties: [\x27b\x27]"]
    [] emptyChecker_kinds rfl rfl rfl rfl rfl

theorem required_default_part_check_congr (check check2 : Checker)
    (sd : Json) (rp : Bool) (allOfErrs : List Error)
    (hagree : SchemaValidator.default_errors check2 sd =
      SchemaValidator.default_errors check sd) :
    SchemaValidator.required_default_part check2 sd rp allOfErrs =
      SchemaValidator.required_default_part check sd rp allOfErrs := by
  unfold SchemaValidator.required_default_part
  cases pyIterE ((sd.get? "required").getD (Json.arr [])) with
  | error e => rfl
  | ok required =>
    cases pyKeysE ((sd.get? "properties").getD (Json.obj [])) with
    | error e => rfl
    | ok propKeys => rw [hagree]

/-- Two checkers whose `default`-paragraph results agree on every node
give `SchemaValidator.iter_errors` identical results (the checker is
consulted nowhere else). -/
theorem schemaIterErrors_check_congr (store : RefStore) (dfuel : Nat)
    (check check2 : Checker)
    (hagree : ∀ s, SchemaValidator.default_errors check2 s =
      SchemaValidator.default_errors check s) :
    ∀ (sfuel : Nat) (schema : Json) (rp : Bool),
      SchemaValidator.iter_errors check2 store dfuel sfuel schema rp =
        SchemaValidator.iter_errors check store dfuel sfuel schema rp := by
  intro sfuel
  induction sfuel with
  | zero => intro schema rp; rfl
  | succ n ih =>
    intro schema rp
    rw [SchemaValidator.iter_errors, SchemaValidator.iter_errors]
    cases liftD (Dereferencer.dereference store dfuel schema) with
    | error e => rfl
    | ok sd =>
      simp only []
      by_cases hobj : sd.isObj = false
      · rw [if_pos hobj, if_pos hobj]
      · rw [if_neg hobj, if_neg hobj]
        cases sd.get? "allOf" with
        | none => exact required_default_part_check_congr check check2 sd rp [] (hagree sd)
        | some mj =>
          simp only []
          cases pyIterE mj with
          | error e => rfl
          | ok members =>
            simp only []
            rw [exceptAppendFold_congr
              (fun m => SchemaValidator.iter_errors check2 store dfuel n m false)
              (fun m => SchemaValidator.iter_errors check store dfuel n m false)
              members (fun m _ => ih m false)]
            cases exceptAppendFold
                (fun m => SchemaValidator.iter_errors check store dfuel n m false)
                members with
            | error e => rfl
            | ok allOfErrs =>
              exact required_default_part_check_congr check check2 sd rp allOfErrs
                (hagree sd)

/-- C8: a schema with a declared `default` delegates `(schema, default)`
to the value checker and propagates its output verbatim (as the final
segment of its error stream), except exactly when the default is `null`
and the schema marks `nullable: true` — then the checker's value at
`(schema, default)` is never consulted: any checker agreeing elsewhere
produces the same result. -/
theorem schema_default_delegation (check : Checker) (store : RefStore)
    (dfuel sfuel : Nat) (schema sd d : Json) (rp : Bool) (errs : List Error)
    (hsd : Dereferencer.dereference store dfuel schema = DerefResult.ok sd)
    (hd : sd.get? "default" = some d)
    (h : SchemaValidator.iter_errors check store dfuel sfuel schema rp = Except.ok errs) :
    (¬(d = Json.null ∧ (sd.get? "nullable").getD (Json.bool false) = Json.bool true) →
      ∃ pre, errs = pre ++ check sd d) ∧
    ((d = Json.null ∧ (sd.get? "nullable").getD (Json.bool false) = Json.bool true) →
      ∀ check2 : Checker, (∀ s v, ¬(s = sd ∧ v = d) → check2 s v = check s v) →
        SchemaValidator.iter_errors check2 store dfuel sfuel schema rp =
          Except.ok errs) := by
  cases sfuel with
  | zero => exact absurd h (by simp [SchemaValidator.iter_errors])
  | succ n =>
    constructor
    · intro hne
      obtain ⟨sd2, hsd2, hrest⟩ := schemaIterErrors_ok_inv check store dfuel n
        schema rp errs h
      rw [hsd] at hsd2
      cases hsd2
      have hdef : SchemaValidator.default_errors check sd = check sd d := by
        unfold SchemaValidator.default_errors
        rw [hd]
        show (if d ≠ Json.null ∨
            (sd.get? "nullable").getD (Json.bool false) ≠ Json.bool true then
          check sd d else []) = check sd d
        rw [if_pos (not_and_or.mp hne)]
      rcases hrest with ⟨hobj, _⟩ | ⟨hobj, allOfErrs, hallOf, htail⟩
      · rw [get?_some_isObj sd "default" d hd] at hobj
        exact absurd hobj (by simp)
      · obtain ⟨required, propKeys, _, _, rfl⟩ :=
          required_default_part_ok_inv check sd rp allOfErrs _ htail
        refine ⟨allOfErrs ++
          (if schemaExtraOf required propKeys ≠ [] ∧ rp = true then
            [Error.extraParameters (extraParametersMsg (schemaExtraOf required propKeys))]
           else []), ?_⟩
        rw [hdef]
    · rintro ⟨hdnull, hnul⟩ check2 hag
      have hagree : ∀ s, SchemaValidator.default_errors check2 s =
          SchemaValidator.default_errors check s := by
        intro s
        unfold SchemaValidator.default_errors
        cases hgd : s.get? "default" with
        | none => rfl
        | some v =>
          show (if v ≠ Json.null ∨
              (s.get? "nullable").getD (Json.bool false) ≠ Json.bool true then
            check2 s v else []) =
            (if v ≠ Json.null ∨
              (s.get? "nullable").getD (Json.bool false) ≠ Json.bool true then
            check s v else [])
          by_cases hc : v ≠ Json.null ∨
              (s.get? "nullable").getD (Json.bool false) ≠ Json.bool true
          · rw [if_pos hc, if_pos hc]
            apply hag
            rintro ⟨rfl, rfl⟩
            subst hdnull
            rcases hc with hc | hc
            · exact hc rfl
            · exact hc hnul
          · rw [if_neg hc, if_neg hc]
      rw [schemaIterErrors_check_congr store dfuel check check2 hagree (n + 1) schema rp]
      exact h

/-- The C8 escape case made concrete: a `null` default on an explicitly
nullable schema. -/
def nullableDefaultSchema : Json :=
  Json.obj [("default", Json.null), ("nullable", Json.bool true)]

/-- Witness for C8. -/
theorem schema_default_delegation_witness :
    (¬(Json.null = Json.null ∧
        (nullableDefaultSchema.get? "nullable").getD (Json.bool false) =
          Json.bool true) →
      ∃ pre, ([] : List Error) = pre ++ emptyChecker nullableDefaultSchema Json.null) ∧
    ((Json.null = Json.null ∧
        (nullableDefaultSchema.get? "nullable").getD (Json.bool false) =
          Json.bool true) →
      ∀ check2 : Checker,
        (∀ s v, ¬(s = nullableDefaultSchema ∧ v = Json.null) →
          check2 s v = emptyChecker s v) →
        SchemaValidator.iter_errors check2 [] 1 1 nullableDefaultSchema true =
          Except.ok []) :=
  schema_default_delegation emptyChecker [] 1 1 nullableDefaultSchema
    nullableDefaultSchema Json.null true [] rfl rfl rfl

/-- The specification's description of duplicate reporting: walking the
key sequence, a `(name, in)` pair already seen earlier yields its name at
that position (the second and later occurrences). -/
def duplicatesAfterFirst (seen : List (Json × Json)) :
    List (Json × Json) → List Json
  | [] => []
  | k :: ks => (if k ∈ seen then [k.1] else []) ++ duplicatesAfterFirst (seen ++ [k]) ks

/-- The `(name, in)` key a parameter contributes to duplicate
detection. -/
def paramKey (p : Json) : Json × Json :=
  ((p.get? "name").getD Json.null, (p.get? "in").getD Json.null)

theorem parametersLoop_filter_dup (check : Checker) (store : RefStore)
    (dfuel sfuel : Nat)
    (hcheck : ∀ s v e, e ∈ check s v → e.isSchemaViolation = true)
    (hdf : 1 ≤ dfuel) :
    ∀ (ps : List Json) (seen : List (Json × Json)) (errs : List Error),
      (∀ p ∈ ps, is_ref p = false) →
      ParametersValidator.loop check store dfuel sfuel seen ps = Except.ok errs →
      errs.filter (fun e => e.isParameterDuplicate) =
        (duplicatesAfterFirst seen (ps.map paramKey)).map
          (fun nm => Error.parameterDuplicate
            ("Duplicate parameter `" ++ pyStr nm ++ "`")) := by
  obtain ⟨dd, rfl⟩ : ∃ dd, dfuel = dd + 1 := ⟨dfuel - 1, by omega⟩
  intro ps
  induction ps with
  | nil =>
    intro seen errs _ h
    rw [ParametersValidator.loop] at h
    cases h
    rfl
  | cons p rest ih =>
    intro seen errs hnoref h
    rw [ParametersValidator.loop,
      dereference_not_ref_fix store dd p (hnoref p (List.mem_cons_self p rest))] at h
    simp only [liftD] at h
    split at h
    · exact absurd h (by simp)
    · rename_i perrs hperrs
      split at h
      · rename_i nm loc hnm hloc
        split at h
        · exact absurd h (by simp)
        · rename_i more hmore
          cases h
          have hkey : paramKey p = (nm, loc) := by
            unfold paramKey
            rw [pyIndex_ok p "name" nm hnm, pyIndex_ok p "in" loc hloc]
            rfl
          rw [List.filter_append, List.filter_append]
          have hperrs0 : perrs.filter (fun e => e.isParameterDuplicate) = [] := by
            rw [List.filter_eq_nil_iff]
            intro e he
            rcases parameterIterErrors_kinds check store (dd + 1) sfuel hcheck p
                perrs hperrs e he with h1 | h1 <;>
              (cases e <;> simp_all [Error.isSchemaViolation, Error.isExtraParameters,
                Error.isParameterDuplicate])
          rw [hperrs0,
            ih (seen ++ [(nm, loc)]) more
              (fun q hq => hnoref q (List.mem_cons_of_mem _ hq)) hmore]
          simp only [List.map_cons, duplicatesAfterFirst, hkey, List.map_append]
          by_cases hin : (nm, loc) ∈ seen
          · rw [if_pos hin, if_pos hin]
            simp [Error.isParameterDuplicate]
          · rw [if_neg hin, if_neg hin]
            simp
      · exact absurd h (by simp)
      · exact absurd h (by simp)

/-- C7: `ParametersValidator` walks the list in order and emits a
`ParameterDuplicateError` (naming the parameter) at exactly the second
and later occurrences of each `(name, in)` pair. -/
theorem parameters_duplicate_detection (check : Checker) (store : RefStore)
    (dfuel sfuel : Nat) (ps : List Json) (errs : List Error)
    (hcheck : ∀ s v e, e ∈ check s v → e.isSchemaViolation = true)
    (hnoref : ∀ p ∈ ps, is_ref p = false) (hdf : 1 ≤ dfuel)
    (h : ParametersValidator.iter_errors check store dfuel sfuel (Json.arr ps) =
      Except.ok errs) :
    errs.filter (fun e => e.isParameterDuplicate) =
      (duplicatesAfterFirst [] (ps.map paramKey)).map
        (fun nm => Error.parameterDuplicate
          ("Duplicate parameter `" ++ pyStr nm ++ "`")) := by
  unfold ParametersValidator.iter_errors at h
  simp only [pyIterE] at h
  exact parametersLoop_filter_dup check store dfuel sfuel hcheck hdf ps [] errs hnoref h

/-- Witness for C7 at the claim's two-parameter list. -/
theorem parameters_duplicate_detection_witness :
    ([Error.parameterDuplicate "Duplicate parameter `id`"].filter
        (fun e => e.isParameterDuplicate)) =
      (duplicatesAfterFirst []
          ([Json.obj [("name", Json.str "id"), ("in", Json.str "path")],
            Json.obj [("name", Json.str "id"), ("in", Json.str "path")]].map paramKey)).map
        (fun nm => Error.parameterDuplicate
          ("Duplicate parameter `" ++ pyStr nm ++ "`")) :=
  parameters_duplicate_detection emptyChecker [] 1 1
    [Json.obj [("name", Json.str "id"), ("in", Json.str "path")],
     Json.obj [("name", Json.str "id"), ("in", Json.str "path")]]
    [Error.parameterDuplicate "Duplicate parameter `id`"]
    emptyChecker_kinds (by decide) (by decide) rfl

/-- Inversion of a successful `OperationValidator.iter_errors` run. -/
theorem operationIterErrors_ok_inv (check : Checker) (store : RefStore)
    (dfuel sfuel : Nat) (url name : String) (operation path_parameters : Json)
    (seen_ids seen' : List Json) (errs : List Error)
    (h : OperationValidator.iter_errors check store dfuel sfuel url name operation
      path_parameters seen_ids = Except.ok (errs, seen')) :
    ∃ od operation_id params paramErrs ppItems opItems names1 names2 placeholders,
      Dereferencer.dereference store dfuel operation = DerefResult.ok od ∧
      pyGet od "operationId" = Except.ok operation_id ∧
      pyGetD od "parameters" (Json.arr []) = Except.ok params ∧
      ParametersValidator.iter_errors check store dfuel sfuel params =
        Except.ok paramErrs ∧
      pyIterE (if path_parameters.isTruthy then path_parameters else Json.arr []) =
        Except.ok ppItems ∧
      pyIterE params = Except.ok opItems ∧
      OperationValidator.get_path_param_names store dfuel ppItems = Except.ok names1 ∧
      OperationValidator.get_path_param_names store dfuel opItems = Except.ok names2 ∧
      OperationValidator.get_path_params_from_url url = some placeholders ∧
      errs = (if operation_id ≠ Json.null ∧ operation_id ∈ seen_ids then
          [Error.duplicateOperationID (duplicateOperationIDMsg operation_id name url)]
        else []) ++ paramErrs ++
        OperationValidator.unresolved_errors url name
          (dedupFirst (names1 ++ names2)) placeholders ∧
      seen' = seen_ids ++ [operation_id] := by
  unfold OperationValidator.iter_errors at h
  split at h
  · exact absurd h (by simp)
  · rename_i od hod
    split at h
    · exact absurd h (by simp)
    · rename_i operation_id hid
      split at h
      · exact absurd h (by simp)
      · rename_i params hparams
        split at h
        · exact absurd h (by simp)
        · rename_i paramErrs hperrs
          split at h
          · rename_i ppItems opItems hpp hop
            split at h
            · rename_i names1 names2 hn1 hn2
              split at h
              · exact absurd h (by simp)
              · rename_i placeholders hurl
                cases h
                exact ⟨od, operation_id, params, paramErrs, ppItems, opItems,
                  names1, names2, placeholders, liftD_ok _ _ hod, hid, hparams,
                  hperrs, hpp, hop, hn1, hn2, hurl, rfl, rfl⟩
            · exact absurd h (by simp)
            · exact absurd h (by simp)
          · exact absurd h (by simp)
          · exact absurd h (by simp)

theorem unresolved_errors_kind (url name : String) (aps : List Json)
    (phs : List String) (e : Error)
    (he : e ∈ OperationValidator.unresolved_errors url name aps phs) :
    e.isUnresolvableParameter = true := by
  unfold OperationValidator.unresolved_errors at he
  obtain ⟨p, _, hpe⟩ := List.mem_filterMap.mp he
  revert hpe
  split
  · intro hpe; exact absurd hpe (by simp)
  · intro hpe
    cases hpe
    rfl

/-- C3: one operation step emits a `DuplicateOperationIDError` exactly
when the dereferenced operation's non-absent `operationId` is already in
the shared registry (at most one such error per step), and appends the
id — the `null` sentinel for an absent one included — to the registry
unconditionally. -/
theorem operation_duplicate_operation_id (check : Checker) (store : RefStore)
    (dfuel sfuel : Nat) (url name : String) (operation od path_parameters : Json)
    (seen_ids seen' : List Json) (errs : List Error)
    (hcheck : ∀ s v e, e ∈ check s v → e.isSchemaViolation = true)
    (hod : Dereferencer.dereference store dfuel operation = DerefResult.ok od)
    (h : OperationValidator.iter_errors check store dfuel sfuel url name operation
      path_parameters seen_ids = Except.ok (errs, seen')) :
    seen' = seen_ids ++ [(od.get? "operationId").getD Json.null] ∧
    errs.countP (fun e => e.isDuplicateOperationID) =
      (if (od.get? "operationId").getD Json.null ≠ Json.null ∧
          (od.get? "operationId").getD Json.null ∈ seen_ids then 1 else 0) := by
  obtain ⟨od2, operation_id, params, paramErrs, ppItems, opItems, names1, names2,
    placeholders, hod2, hid, hparams, hperrs, hpp, hop, hn1, hn2, hurl, rfl, rfl⟩ :=
    operationIterErrors_ok_inv check store dfuel sfuel url name operation
      path_parameters seen_ids _ _ h
  rw [hod] at hod2
  cases hod2
  have hidv : operation_id = (od.get? "operationId").getD Json.null :=
    pyGet_ok od "operationId" operation_id hid
  subst hidv
  refine ⟨rfl, ?_⟩
  rw [List.countP_append, List.countP_append]
  have hp0 : paramErrs.countP (fun e => e.isDuplicateOperationID) = 0 := by
    rw [List.countP_eq_zero]
    intro e he
    rcases parametersIterErrors_kinds check store dfuel sfuel hcheck params
        paramErrs hperrs e he with h1 | h1 | h1 <;>
      (cases e <;> simp_all [Error.isSchemaViolation, Error.isExtraParameters,
        Error.isParameterDuplicate, Error.isDuplicateOperationID])
  have hu0 : (OperationValidator.unresolved_errors url name
      (dedupFirst (names1 ++ names2)) placeholders).countP
      (fun e => e.isDuplicateOperationID) = 0 := by
    rw [List.countP_eq_zero]
    intro e he
    have := unresolved_errors_kind url name _ placeholders e he
    cases e <;> simp_all [Error.isUnresolvableParameter, Error.isDuplicateOperationID]
  rw [hp0, hu0]
  by_cases hc : (od.get? "operationId").getD Json.null ≠ Json.null ∧
      (od.get? "operationId").getD Json.null ∈ seen_ids
  · rw [if_pos hc, if_pos hc]
    simp [Error.isDuplicateOperationID]
  · rw [if_neg hc, if_neg hc]
    simp

/-- Witness for C3: the second of two operations declaring the same id
yields exactly one error, and the registry gains the id. -/
theorem operation_duplicate_operation_id_witness :
    ([Json.str "listItems"] ++
        [((Json.obj [("operationId", Json.str "listItems")]).get?
          "operationId").getD Json.null] =
      [Json.str "listItems"] ++
        [((Json.obj [("operationId", Json.str "listItems")]).get?
          "operationId").getD Json.null]) ∧
    ([Error.duplicateOperationID
        "Operation ID \x27listItems\x27 for \x27get\x27 in \x27/b\x27 is not unique"].countP
        (fun e => e.isDuplicateOperationID) =
      (if ((Json.obj [("operationId", Json.str "listItems")]).get?
            "operationId").getD Json.null ≠ Json.null ∧
          ((Json.obj [("operationId", Json.str "listItems")]).get?
            "operationId").getD Json.null ∈ [Json.str "listItems"] then 1 else 0)) := by
  have h := operation_duplicate_operation_id emptyChecker [] 1 1 "/b" "get"
    (Json.obj [("operationId", Json.str "listItems")])
    (Json.obj [("operationId", Json.str "listItems")]) (Json.arr [])
    [Json.str "listItems"]
    ([Json.str "listItems"] ++
      [((Json.obj [("operationId", Json.str "listItems")]).get?
        "operationId").getD Json.null])
    [Error.duplicateOperationID
      "Operation ID \x27listItems\x27 for \x27get\x27 in \x27/b\x27 is not unique"]
    emptyChecker_kinds rfl rfl
  exact ⟨h.1 ▸ rfl, h.2⟩

theorem unresolved_errors_eq_filter_map (url name : String) (ns : List Json)
    (phs : List String) :
    OperationValidator.unresolved_errors url name (dedupFirst ns) phs =
      (phs.filter (fun p => decide (Json.str p ∉ ns))).map
        (fun p => Error.unresolvableParameter (unresolvableParameterMsg p name url)) := by
  induction phs with
  | nil => rfl
  | cons p rest ih =>
    unfold OperationValidator.unresolved_errors at ih ⊢
    rw [List.filterMap_cons, List.filter_cons]
    by_cases hp : Json.str p ∈ ns
    · rw [if_pos ((mem_dedupFirst ns _).mpr hp)]
      simp only [hp, not_true_eq_false, decide_False, Bool.false_eq_true, if_false]
      exact ih
    · rw [if_neg (fun hc => hp ((mem_dedupFirst ns _).mp hc))]
      simp only [hp, not_false_eq_true, decide_True, if_true, List.map_cons]
      rw [ih]

/-- C4: one operation step emits exactly one `UnresolvableParameterError`
per URL-template placeholder whose name is not among the `in: path`
parameter names collected from the path-item level and the operation
level — in placeholder order, naming each placeholder — and none for a
placeholder declared at either level. -/
theorem operation_unresolvable_placeholders (check : Checker) (store : RefStore)
    (dfuel sfuel : Nat) (url name : String) (operation od path_parameters params : Json)
    (seen_ids seen' : List Json) (errs : List Error)
    (ppItems opItems names1 names2 : List Json) (placeholders : List String)
    (hcheck : ∀ s v e, e ∈ check s v → e.isSchemaViolation = true)
    (hod : Dereferencer.dereference store dfuel operation = DerefResult.ok od)
    (hparams : pyGetD od "parameters" (Json.arr []) = Except.ok params)
    (hpp : pyIterE (if path_parameters.isTruthy then path_parameters
      else Json.arr []) = Except.ok ppItems)
    (hop : pyIterE params = Except.ok opItems)
    (hn1 : OperationValidator.get_path_param_names store dfuel ppItems =
      Except.ok names1)
    (hn2 : OperationValidator.get_path_param_names store dfuel opItems =
      Except.ok names2)
    (hurl : OperationValidator.get_path_params_from_url url = some placeholders)
    (h : OperationValidator.iter_errors check store dfuel sfuel url name operation
      path_parameters seen_ids = Except.ok (errs, seen')) :
    errs.filter (fun e => e.isUnresolvableParameter) =
      (placeholders.filter (fun p => decide (Json.str p ∉ names1 ++ names2))).map
        (fun p => Error.unresolvableParameter (unresolvableParameterMsg p name url)) := by
  obtain ⟨od2, operation_id, params2, paramErrs, ppItems2, opItems2, names1b, names2b,
    placeholders2, hod2, hid, hparams2, hperrs, hpp2, hop2, hn1b, hn2b, hurl2, rfl, _⟩ :=
    operationIterErrors_ok_inv check store dfuel sfuel url name operation
      path_parameters seen_ids _ _ h
  rw [hod] at hod2
  cases hod2
  rw [hparams] at hparams2
  cases hparams2
  rw [hpp] at hpp2
  cases hpp2
  rw [hop] at hop2
  cases hop2
  rw [hn1] at hn1b
  cases hn1b
  rw [hn2] at hn2b
  cases hn2b
  rw [hurl] at hurl2
  cases hurl2
  rw [List.filter_append, List.filter_append]
  have hd0 : ((if operation_id ≠ Json.null ∧ operation_id ∈ seen_ids then
      [Error.duplicateOperationID (duplicateOperationIDMsg operation_id name url)]
    else []) : List Error).filter (fun e => e.isUnresolvableParameter) = [] := by
    split <;> simp [Error.isUnresolvableParameter]
  have hp0 : paramErrs.filter (fun e => e.isUnresolvableParameter) = [] := by
    rw [List.filter_eq_nil_iff]
    intro e he
    rcases parametersIterErrors_kinds check store dfuel sfuel hcheck params
        paramErrs hperrs e he with h1 | h1 | h1 <;>
      (cases e <;> simp_all [Error.isSchemaViolation, Error.isExtraParameters,
        Error.isParameterDuplicate, Error.isUnresolvableParameter])
  have hu1 : (OperationValidator.unresolved_errors url name
      (dedupFirst (names1 ++ names2)) placeholders).filter
      (fun e => e.isUnresolvableParameter) =
      OperationValidator.unresolved_errors url name
        (dedupFirst (names1 ++ names2)) placeholders := by
    rw [List.filter_eq_self]
    intro e he
    exact unresolved_errors_kind url name _ placeholders e he
  rw [hd0, hp0, hu1, unresolved_errors_eq_filter_map]
  rfl

/-- Witness for C4: `/items/{id}` with no declared `id` path parameter
yields exactly one error naming `id`; `/ok/{id}` with it declared at the
path-item level yields none (both read off the theorem's equation). -/
theorem operation_unresolvable_placeholders_witness :
    ([Error.unresolvableParameter
        "Path parameter \x27id\x27 for \x27get\x27 operation in \x27/items/{id}\x27 was not resolved"].filter
        (fun e => e.isUnresolvableParameter)) =
      ((["id"].filter (fun p => decide (Json.str p ∉ ([] : List Json) ++ []))).map
        (fun p => Error.unresolvableParameter
          (unresolvableParameterMsg p "get" "/items/{id}"))) :=
  operation_unresolvable_placeholders emptyChecker [] 1 1 "/items/{id}" "get"
    (Json.obj []) (Json.obj []) (Json.arr []) (Json.arr []) [] [Json.null]
    [Error.unresolvableParameter
      "Path parameter \x27id\x27 for \x27get\x27 operation in \x27/items/{id}\x27 was not resolved"]
    [] [] [] [] ["id"]
    emptyChecker_kinds rfl rfl rfl rfl rfl rfl rfl rfl
